import Mathlib

/-!
Verification of `src/tracking_main/resnet_yolo.py` (a ResNet backbone with a
DetNet-style detection head and a YOLO-style grid output).

The file is embedded at two levels:

* a computable shape semantics: every layer is a record of its constructor
  arguments and maps an input shape to `Except String` of an output shape,
  erroring exactly where PyTorch would raise (channel-count mismatch, empty
  output, mismatched residual addition);
* a real-valued semantics (`section ValueModel`) for the numeric claims: tensors
  carry data as functions into `ℝ`, convolution / normalization / pooling /
  activation are spelled out, and floating point is idealised as `ℝ`.

Every layer of the Python file acts on the batch elements independently and
never changes the batch size, so the shape semantics is stated on
(channels, height, width) triples and the batch axis is threaded through
unchanged by `ResNet.forwardShape`.
-/

namespace ResnetYolo

/-- Shape of one input of a batch, PyTorch order without the batch axis:
(channels, height, width). -/
structure ShapeCHW where
  c : Nat
  h : Nat
  w : Nat
deriving DecidableEq, Repr

/-- Shape of the network output after `x.permute(0, 2, 3, 1)`: the channel
axis comes last. -/
structure ShapeNHWC where
  n : Nat
  h : Nat
  w : Nat
  c : Nat
deriving DecidableEq, Repr

/-- nn.Conv2d as instantiated in resnet_yolo.py: square kernel, and
`bias=False` at every call site of the file, so no bias is modelled. -/
structure Conv2d where
  in_channels : Nat
  out_channels : Nat
  kernel_size : Nat
  stride : Nat
  padding : Nat
  dilation : Nat
deriving DecidableEq, Repr

/-- PyTorch output size of one spatial axis of a convolution (floor division). -/
def Conv2d.outDim (l : Conv2d) (d : Nat) : Nat :=
  (d + 2 * l.padding - l.dilation * (l.kernel_size - 1) - 1) / l.stride + 1

/-- Shape rule of a convolution: the input channel count must equal
`in_channels` (PyTorch raises otherwise), the output size must be positive. -/
def Conv2d.apply (l : Conv2d) (s : ShapeCHW) : Except String ShapeCHW :=
  if s.c ≠ l.in_channels then
    .error "conv2d: wrong number of input channels"
  else if s.h + 2 * l.padding < l.dilation * (l.kernel_size - 1) + 1 ∨
      s.w + 2 * l.padding < l.dilation * (l.kernel_size - 1) + 1 then
    .error "conv2d: output size would be empty"
  else
    .ok ⟨l.out_channels, l.outDim s.h, l.outDim s.w⟩

/-- nn.BatchNorm2d: only the channel count is fixed at construction. -/
structure BatchNorm2d where
  num_features : Nat
deriving DecidableEq, Repr

/-- Shape rule of batch normalization: channel count must match, shape kept. -/
def BatchNorm2d.apply (l : BatchNorm2d) (s : ShapeCHW) : Except String ShapeCHW :=
  if s.c = l.num_features then .ok s else .error "batchnorm2d: wrong number of channels"

/-- nn.MaxPool2d as instantiated in the stem. -/
structure MaxPool2d where
  kernel_size : Nat
  stride : Nat
  padding : Nat
deriving DecidableEq, Repr

def MaxPool2d.outDim (l : MaxPool2d) (d : Nat) : Nat :=
  (d + 2 * l.padding - l.kernel_size) / l.stride + 1

def MaxPool2d.apply (l : MaxPool2d) (s : ShapeCHW) : Except String ShapeCHW :=
  if s.h + 2 * l.padding < l.kernel_size ∨ s.w + 2 * l.padding < l.kernel_size then
    .error "maxpool2d: output size would be empty"
  else
    .ok ⟨s.c, l.outDim s.h, l.outDim s.w⟩

/-- nn.AvgPool2d(2): the stride defaults to the kernel size. -/
structure AvgPool2d where
  kernel_size : Nat
deriving DecidableEq, Repr

def AvgPool2d.outDim (l : AvgPool2d) (d : Nat) : Nat :=
  (d - l.kernel_size) / l.kernel_size + 1

def AvgPool2d.apply (l : AvgPool2d) (s : ShapeCHW) : Except String ShapeCHW :=
  if s.h < l.kernel_size ∨ s.w < l.kernel_size then
    .error "avgpool2d: output size would be empty"
  else
    .ok ⟨s.c, l.outDim s.h, l.outDim s.w⟩

/-- The `downsample` pipeline handed to the residual blocks:
`nn.Sequential(nn.Conv2d(...), nn.BatchNorm2d(...))`. -/
structure Downsample where
  conv : Conv2d
  bn : BatchNorm2d
deriving DecidableEq, Repr

def Downsample.apply (d : Downsample) (s : ShapeCHW) : Except String ShapeCHW :=
  d.conv.apply s >>= d.bn.apply

/-- conv3x3 of the source: 3x3 convolution with padding 1, no bias. -/
def conv3x3 (in_planes out_planes stride : Nat) : Conv2d :=
  ⟨in_planes, out_planes, 3, stride, 1, 1⟩

/-- BasicBlock: the two-convolution residual block. -/
structure BasicBlock where
  conv1 : Conv2d
  bn1 : BatchNorm2d
  conv2 : Conv2d
  bn2 : BatchNorm2d
  downsample : Option Downsample
  stride : Nat
deriving DecidableEq, Repr

def BasicBlock.expansion : Nat := 1

/-- BasicBlock.__init__(inplanes, planes, stride, downsample). -/
def BasicBlock.build (inplanes planes stride : Nat) (downsample : Option Downsample) :
    BasicBlock :=
  { conv1 := conv3x3 inplanes planes stride
    bn1 := ⟨planes⟩
    conv2 := conv3x3 planes planes 1
    bn2 := ⟨planes⟩
    downsample := downsample
    stride := stride }

/-- BasicBlock.forward at the shape level: ReLU keeps the shape, and the
in-place `out += residual` needs the two shapes to agree. -/
def BasicBlock.apply (b : BasicBlock) (x : ShapeCHW) : Except String ShapeCHW := do
  let out ← b.conv1.apply x
  let out ← b.bn1.apply out
  let out ← b.conv2.apply out
  let out ← b.bn2.apply out
  let residual ← match b.downsample with
    | some d => d.apply x
    | none => pure x
  if out = residual then pure out else .error "residual add: shape mismatch"

/-- Bottleneck: the three-convolution residual block, expansion 4. -/
structure Bottleneck where
  conv1 : Conv2d
  bn1 : BatchNorm2d
  conv2 : Conv2d
  bn2 : BatchNorm2d
  conv3 : Conv2d
  bn3 : BatchNorm2d
  downsample : Option Downsample
  stride : Nat
deriving DecidableEq, Repr

def Bottleneck.expansion : Nat := 4

/-- Bottleneck.__init__(inplanes, planes, stride, downsample). -/
def Bottleneck.build (inplanes planes stride : Nat) (downsample : Option Downsample) :
    Bottleneck :=
  { conv1 := ⟨inplanes, planes, 1, 1, 0, 1⟩
    bn1 := ⟨planes⟩
    conv2 := ⟨planes, planes, 3, stride, 1, 1⟩
    bn2 := ⟨planes⟩
    conv3 := ⟨planes, planes * 4, 1, 1, 0, 1⟩
    bn3 := ⟨planes * 4⟩
    downsample := downsample
    stride := stride }

/-- Bottleneck.forward at the shape level. -/
def Bottleneck.apply (b : Bottleneck) (x : ShapeCHW) : Except String ShapeCHW := do
  let out ← b.conv1.apply x
  let out ← b.bn1.apply out
  let out ← b.conv2.apply out
  let out ← b.bn2.apply out
  let out ← b.conv3.apply out
  let out ← b.bn3.apply out
  let residual ← match b.downsample with
    | some d => d.apply x
    | none => pure x
  if out = residual then pure out else .error "residual add: shape mismatch"

/-- The block_type argument of DetNetBottleneck, 'A' or 'B' in the source. -/
inductive BlockType
  | A
  | B
deriving DecidableEq, Repr

/-- DetNetBottleneck: dilated three-convolution block of the detection head.
Its `self.downsample` attribute is always assigned; the empty
`nn.Sequential()` case is modelled as `none`. -/
structure DetNetBottleneck where
  conv1 : Conv2d
  bn1 : BatchNorm2d
  conv2 : Conv2d
  bn2 : BatchNorm2d
  conv3 : Conv2d
  bn3 : BatchNorm2d
  downsample : Option Downsample
deriving DecidableEq, Repr

def DetNetBottleneck.expansion : Nat := 1

/-- DetNetBottleneck.__init__(in_planes, planes, stride, block_type): conv2 is
the dilated convolution (padding 2, dilation 2); the 1x1 conv + batchnorm
downsample replaces the empty Sequential iff
stride != 1 or in_planes != expansion * planes or block_type == 'B'. -/
def DetNetBottleneck.build (in_planes planes stride : Nat) (block_type : BlockType) :
    DetNetBottleneck :=
  { conv1 := ⟨in_planes, planes, 1, 1, 0, 1⟩
    bn1 := ⟨planes⟩
    conv2 := ⟨planes, planes, 3, stride, 2, 2⟩
    bn2 := ⟨planes⟩
    conv3 := ⟨planes, DetNetBottleneck.expansion * planes, 1, 1, 0, 1⟩
    bn3 := ⟨DetNetBottleneck.expansion * planes⟩
    downsample :=
      if stride ≠ 1 ∨ in_planes ≠ DetNetBottleneck.expansion * planes ∨
          block_type = BlockType.B then
        some ⟨⟨in_planes, DetNetBottleneck.expansion * planes, 1, stride, 0, 1⟩,
              ⟨DetNetBottleneck.expansion * planes⟩⟩
      else none }

/-- self.downsample as a shape function: the empty Sequential is the identity. -/
def DetNetBottleneck.downsampleApply (b : DetNetBottleneck) (x : ShapeCHW) :
    Except String ShapeCHW :=
  match b.downsample with
  | some d => d.apply x
  | none => pure x

/-- DetNetBottleneck.forward at the shape level. -/
def DetNetBottleneck.apply (b : DetNetBottleneck) (x : ShapeCHW) :
    Except String ShapeCHW := do
  let out ← b.conv1.apply x
  let out ← b.bn1.apply out
  let out ← b.conv2.apply out
  let out ← b.bn2.apply out
  let out ← b.conv3.apply out
  let out ← b.bn3.apply out
  let residual ← b.downsampleApply x
  if out = residual then pure out else .error "residual add: shape mismatch"

/-- A residual block of a backbone stage (the modules _make_layer puts into its
nn.Sequential). -/
inductive Block
  | basic : BasicBlock → Block
  | bottleneck : Bottleneck → Block
deriving DecidableEq, Repr

/-- The class object passed as the `block` argument of ResNet.__init__. -/
inductive BlockKind
  | basicKind
  | bottleneckKind
deriving DecidableEq, Repr

/-- block.expansion of the class passed to ResNet.__init__. -/
def BlockKind.expansion : BlockKind → Nat
  | .basicKind => BasicBlock.expansion
  | .bottleneckKind => Bottleneck.expansion

/-- Calling the block class: block(inplanes, planes, stride, downsample). -/
def BlockKind.build : BlockKind → Nat → Nat → Nat → Option Downsample → Block
  | .basicKind, inplanes, planes, stride, ds => .basic (BasicBlock.build inplanes planes stride ds)
  | .bottleneckKind, inplanes, planes, stride, ds =>
      .bottleneck (Bottleneck.build inplanes planes stride ds)

def Block.apply : Block → ShapeCHW → Except String ShapeCHW
  | .basic b, x => b.apply x
  | .bottleneck b, x => b.apply x

def Block.stride : Block → Nat
  | .basic b => b.stride
  | .bottleneck b => b.stride

def Block.downsample : Block → Option Downsample
  | .basic b => b.downsample
  | .bottleneck b => b.downsample

/-- Channel count the block expects (in_channels of its first convolution). -/
def Block.inChannels : Block → Nat
  | .basic b => b.conv1.in_channels
  | .bottleneck b => b.conv1.in_channels

/-- Channel count the block outputs (num_features of its last normalization). -/
def Block.outChannels : Block → Nat
  | .basic b => b.bn2.num_features
  | .bottleneck b => b.bn3.num_features

/-- ResNet._make_layer(block, planes, blocks, stride): returns the stage and
the updated self.inplanes (= planes * block.expansion). -/
def makeLayer (block : BlockKind) (inplanes planes blocks stride : Nat) :
    List Block × Nat :=
  let downsample : Option Downsample :=
    if stride ≠ 1 ∨ inplanes ≠ planes * block.expansion then
      some ⟨⟨inplanes, planes * block.expansion, 1, stride, 0, 1⟩,
            ⟨planes * block.expansion⟩⟩
    else none
  let first := block.build inplanes planes stride downsample
  let rest := (List.range (blocks - 1)).map fun _ =>
    block.build (planes * block.expansion) planes 1 none
  (first :: rest, planes * block.expansion)

/-- ResNet._make_detnet_layer(in_channels): exactly three DetNet blocks, the
first of type 'B' mapping in_channels to 256, the other two of type 'A'. -/
def makeDetnetLayer (in_channels : Nat) : List DetNetBottleneck :=
  [DetNetBottleneck.build in_channels 256 1 BlockType.B,
   DetNetBottleneck.build 256 256 1 BlockType.A,
   DetNetBottleneck.build 256 256 1 BlockType.A]

/-- The ResNet module: stem, four residual stages, detection-head stage,
avgpool (constructed but not used by forward), final projection. -/
structure ResNet where
  conv1 : Conv2d
  bn1 : BatchNorm2d
  maxpool : MaxPool2d
  layer1 : List Block
  layer2 : List Block
  layer3 : List Block
  layer4 : List Block
  layer5 : List DetNetBottleneck
  avgpool : AvgPool2d
  conv_end : Conv2d
  bn_end : BatchNorm2d
deriving DecidableEq, Repr

/-- ResNet.__init__(block, layers) with layers = [l0, l1, l2, l3, l4];
self.inplanes starts at 64 and is threaded through the four _make_layer
calls exactly as the mutable attribute is. -/
def ResNet.build (block : BlockKind) (l0 l1 l2 l3 l4 : Nat) : ResNet :=
  let inplanes := 64
  let (layer1, inplanes) := makeLayer block inplanes 64 l0 1
  let (layer2, inplanes) := makeLayer block inplanes 128 l1 2
  let (layer3, inplanes) := makeLayer block inplanes 256 l2 2
  let (layer4, _) := makeLayer block inplanes 512 l3 2
  { conv1 := ⟨3, 64, 7, 2, 3, 1⟩
    bn1 := ⟨64⟩
    maxpool := ⟨3, 2, 1⟩
    layer1 := layer1
    layer2 := layer2
    layer3 := layer3
    layer4 := layer4
    layer5 := makeDetnetLayer l4
    avgpool := ⟨2⟩
    conv_end := ⟨256, 10, 3, 1, 1, 1⟩
    bn_end := ⟨10⟩ }

/-- An nn.Sequential of residual blocks, applied in list order. -/
def applySeq (bs : List Block) (x : ShapeCHW) : Except String ShapeCHW :=
  bs.foldlM (fun s b => b.apply s) x

/-- An nn.Sequential of DetNet blocks, applied in list order. -/
def applyDetSeq (bs : List DetNetBottleneck) (x : ShapeCHW) : Except String ShapeCHW :=
  bs.foldlM (fun s b => b.apply s) x

/-- ResNet.forward at the shape level, per batch element.  The avgpool line
is commented out in the source; relu and sigmoid keep the shape; the final
permute is applied by `ResNet.forwardShape`. -/
def ResNet.forwardCHW (net : ResNet) (s : ShapeCHW) : Except String ShapeCHW := do
  let s ← net.conv1.apply s
  let s ← net.bn1.apply s
  let s ← net.maxpool.apply s
  let s ← applySeq net.layer1 s
  let s ← applySeq net.layer2 s
  let s ← applySeq net.layer3 s
  let s ← applySeq net.layer4 s
  let s ← applyDetSeq net.layer5 s
  let s ← net.conv_end.apply s
  let s ← net.bn_end.apply s
  pure s

/-- ResNet.forward on a batch of n inputs of shape s, including the final
`x.permute(0, 2, 3, 1)`: channel axis moved last, batch axis unchanged. -/
def ResNet.forwardShape (net : ResNet) (n : Nat) (s : ShapeCHW) :
    Except String ShapeNHWC :=
  (net.forwardCHW s).map fun t => ⟨n, t.h, t.w, t.c⟩

/-- resnet18(): ResNet(BasicBlock, [2, 2, 2, 2, 512]). -/
def resnet18 : ResNet := ResNet.build .basicKind 2 2 2 2 512

/-- resnet34(): ResNet(BasicBlock, [3, 4, 6, 3, 512]). -/
def resnet34 : ResNet := ResNet.build .basicKind 3 4 6 3 512

/-- resnet50(): ResNet(Bottleneck, [3, 4, 6, 3, 2048]). -/
def resnet50 : ResNet := ResNet.build .bottleneckKind 3 4 6 3 2048

/-- resnet101(): ResNet(Bottleneck, [3, 4, 23, 3, 2048]). -/
def resnet101 : ResNet := ResNet.build .bottleneckKind 3 4 23 3 2048

/-- resnet152(): ResNet(Bottleneck, [3, 8, 36, 3, 2048]). -/
def resnet152 : ResNet := ResNet.build .bottleneckKind 3 8 36 3 2048

/-- The five depth configurations the file registers. -/
inductive Config
  | r18
  | r34
  | r50
  | r101
  | r152
deriving DecidableEq, Repr

/-- The network each configuration constructs. -/
def Config.net : Config → ResNet
  | .r18 => resnet18
  | .r34 => resnet34
  | .r50 => resnet50
  | .r101 => resnet101
  | .r152 => resnet152

/-!
The pretrained-weight importer, load_my_state_dict.

A state dict is modelled as an association list from parameter name to a
tensor given by its shape and its flattened (row-major) values.  Looking a
name up in a Python dict is `dictGet`.  `model_dict[name].copy_(param)`
follows torch.Tensor.copy_: it succeeds whenever the source shape is
broadcastable to the destination shape — every trailing-aligned source axis
of size 1 or of the destination's size, and no extra source axes — and then
writes the source, expanded to the destination's shape, into the stored
tensor (which keeps its own shape); only a non-broadcastable source raises.
In particular a mismatched-but-broadcastable shape is written silently.
`net.state_dict()` aliases the parameter tensors of the network, so the
dict the loop mutates is the parameter state of the network and the updated
dict is returned in place of Python's in-place mutation.
-/

/-- A tensor held by a state dict: its shape and its flattened values. -/
structure PTensor where
  shape : List Nat
  data : List ℚ
deriving DecidableEq, Repr

/-- A parameter mapping, ordered as Python iterates it. -/
abbrev StateDict := List (String × PTensor)

/-- Python dict lookup (`name in d`, `d[name]`). -/
def dictGet {α : Type} (name : String) : List (String × α) → Option α
  | [] => none
  | (m, p) :: rest => if m = name then some p else dictGet name rest

/-- Number of elements of a tensor of the given shape. -/
def listProd : List Nat → Nat
  | [] => 1
  | d :: ds => d * listProd ds

/-- Row-major multi-index of flat position n in a tensor of the given shape. -/
def unflatten : List Nat → Nat → List Nat
  | [], _ => []
  | _ :: ds, n => (n / listProd ds) :: unflatten ds (n % listProd ds)

/-- Row-major flat position of a multi-index in the given shape. -/
def flattenIdx : List Nat → List Nat → Nat
  | _ :: ds, i :: is => i * listProd ds + flattenIdx ds is
  | _, _ => 0

/-- Axis test of torch broadcasting of a source shape into a destination
shape on the reversed (trailing-aligned) shapes: every source axis has size
1 or the destination's size, and the source has no extra axes. -/
def broadcastDimsOk : List Nat → List Nat → Bool
  | [], _ => true
  | _ :: _, [] => false
  | s :: ss, d :: ds => (s == 1 || s == d) && broadcastDimsOk ss ds

/-- The source shape is broadcastable to the destination shape: what
dst.copy_(src) requires (torch expand semantics). -/
def broadcastableTo (src dst : List Nat) : Bool :=
  broadcastDimsOk src.reverse dst.reverse

/-- The values dst.copy_(src) writes into a destination of shape `dst`: the
source expanded over its size-1 axes and over the leading destination axes
it lacks, read at the source position aligned with each destination index. -/
def broadcastData (dst : List Nat) (src : PTensor) : List ℚ :=
  (List.range (listProd dst)).map fun n =>
    src.data.getD
      (flattenIdx src.shape
        (List.zipWith (fun s i => if s = 1 then 0 else i) src.shape
          ((unflatten dst n).drop (dst.length - src.shape.length)))) 0

/-- Overwrite the values stored under `name`; the stored tensor keeps its
own shape (copy_ mutates storage, never metadata). -/
def copyInto (md : StateDict) (name : String) (d : List ℚ) : StateDict :=
  md.map fun kv => if kv.1 = name then (kv.1, ⟨kv.2.shape, d⟩) else kv

/-- The loop of load_my_state_dict over param.items(): a name not in
model_dict is skipped (continue); otherwise model_dict[name].copy_(param),
which broadcast-writes the source into the stored tensor whenever the
source shape is broadcastable to the stored shape, and raises otherwise. -/
def loadPairs (md : StateDict) : StateDict → Except String StateDict
  | [] => .ok md
  | (name, p) :: rest =>
    match dictGet name md with
    | none => loadPairs md rest
    | some q =>
      if broadcastableTo p.shape q.shape = true then
        loadPairs (copyInto md name (broadcastData q.shape p)) rest
      else .error "copy_: incompatible shapes"

/-- The values stored under a destination entry named `name` of shape `dst`
holding `d` after the source entries in `ps` have been processed: each
matching source entry overwrites them with its broadcast into `dst`. -/
def dataAfter (name : String) (dst : List Nat) (d : List ℚ) : StateDict → List ℚ
  | [] => d
  | (m, p) :: rest => dataAfter name dst (if m = name then broadcastData dst p else d) rest

/-- The shape of the tensor stored under a name (the tensor
model_dict[name] whose storage copy_ writes), with a fallback for absent
names. -/
def lookupShape (md : StateDict) (name : String) (dflt : List Nat) : List Nat :=
  match dictGet name md with
  | some q => q.shape
  | none => dflt

/-- The state of model_dict after a successful import: every entry keeps its
name, position and shape, and its values become the broadcast of the last
tensor the source assigns to its name, if any. -/
def importedDict (md ps : StateDict) : StateDict :=
  md.map fun kv =>
    (kv.1, ⟨kv.2.shape, dataAfter kv.1 (lookupShape md kv.1 kv.2.shape) kv.2.data ps⟩)

/-- Every source entry whose name is found in the dict carries a value whose
shape is broadcastable to the stored shape. -/
def Compat (md ps : StateDict) : Prop :=
  ∀ name p q, (name, p) ∈ ps → dictGet name md = some q →
    broadcastableTo p.shape q.shape = true

/-- The module-level model_urls registry. -/
def model_urls : List (String × String) :=
  [("resnet18", "https://download.pytorch.org/models/resnet18-5c106cde.pth"),
   ("resnet34", "https://download.pytorch.org/models/resnet34-333f7ec4.pth"),
   ("resnet50", "https://download.pytorch.org/models/resnet50-19c8e357.pth"),
   ("resnet101", "https://download.pytorch.org/models/resnet101-5d3b4d8f.pth"),
   ("resnet152", "https://download.pytorch.org/models/resnet152-b121ed2d.pth")]

/-- load_my_state_dict(net, parameter_url): `model_urls[parameter_url]`
raises KeyError when the name is not registered, before anything is fetched
or touched; `model_zoo.load_url` is the network fetch, handed in as the
function `load_url` from url to state dict; `net` is the network's parameter
state (its state_dict aliases its parameters). -/
def load_my_state_dict (load_url : String → StateDict) (net : StateDict)
    (parameter_url : String) : Except String StateDict :=
  match dictGet parameter_url model_urls with
  | none => .error "KeyError: parameter_url not registered in model_urls"
  | some url => loadPairs net (load_url url)

/-!
Real-valued semantics of the forward pass.  Floating point is idealised as
`ℝ`.  A tensor carries its per-element shape (channels, height, width) — the
padding bounds of convolution and pooling need it — and its values as a
function of (batch element, channel, row, column); all layers act on each
batch element independently.  Batch normalization is taken in its evaluation
form, normalizing with the statistics stored in the layer.
-/

noncomputable section ValueModel

/-- Tensor values, indexed by (batch element, channel, row, column). -/
abbrev Data4 : Type := Nat → Nat → Nat → Nat → ℝ

/-- A real-valued activation tensor: per-element shape plus values. -/
structure Tensor4 where
  shape : ShapeCHW
  data : Data4

/-- Zero-padded read of an activation at integer spatial coordinates. -/
def padRead (x : Tensor4) (n c : Nat) (i j : ℤ) : ℝ :=
  if 0 ≤ i ∧ i < (x.shape.h : ℤ) ∧ 0 ≤ j ∧ j < (x.shape.w : ℤ) then
    x.data n c i.toNat j.toNat
  else 0

/-- Convolution values: cross-correlation with stride, zero padding and
dilation, summed over the input channels; no bias anywhere in this file.
The weight is indexed by (output channel, input channel, kernel row,
kernel column). -/
def Conv2d.eval (l : Conv2d) (weight : Data4) (x : Tensor4) : Tensor4 :=
  { shape := ⟨l.out_channels, l.outDim x.shape.h, l.outDim x.shape.w⟩
    data := fun n oc i j =>
      ∑ ic ∈ Finset.range l.in_channels, ∑ a ∈ Finset.range l.kernel_size,
        ∑ b ∈ Finset.range l.kernel_size,
          weight oc ic a b *
            padRead x n ic ((l.stride * i + l.dilation * a : ℤ) - l.padding)
              ((l.stride * j + l.dilation * b : ℤ) - l.padding) }

/-- The numeric state of a batch-normalization layer, per channel. -/
structure BnParams where
  weight : Nat → ℝ
  bias : Nat → ℝ
  running_mean : Nat → ℝ
  running_var : Nat → ℝ

/-- PyTorch's default batch-normalization epsilon. -/
def batchNormEps : ℝ := 1e-5

/-- Batch-normalization values in evaluation form. -/
def BatchNorm2d.eval (_ : BatchNorm2d) (p : BnParams) (x : Tensor4) : Tensor4 :=
  { shape := x.shape
    data := fun n c i j =>
      p.weight c * ((x.data n c i j - p.running_mean c) /
        Real.sqrt (p.running_var c + batchNormEps)) + p.bias c }

/-- Elementwise ReLU. -/
def reluT (x : Tensor4) : Tensor4 :=
  { shape := x.shape, data := fun n c i j => max 0 (x.data n c i j) }

/-- torch.sigmoid on one value. -/
def sigmoid (z : ℝ) : ℝ := 1 / (1 + Real.exp (-z))

/-- Elementwise sigmoid. -/
def sigmoidT (x : Tensor4) : Tensor4 :=
  { shape := x.shape, data := fun n c i j => sigmoid (x.data n c i j) }

/-- Elementwise residual addition (`out += residual`). -/
def addT (x y : Tensor4) : Tensor4 :=
  { shape := x.shape, data := fun n c i j => x.data n c i j + y.data n c i j }

/-- Largest element of a list (junk 0 on the empty list, which a pooling
window of positive kernel size never produces). -/
def listMax : List ℝ → ℝ
  | [] => 0
  | a :: t => t.foldl max a

/-- The in-bounds activations a max-pooling window covers; padded positions
count as minus infinity, hence never contribute. -/
def MaxPool2d.window (l : MaxPool2d) (x : Tensor4) (n c i j : Nat) : List ℝ :=
  (List.range l.kernel_size).flatMap fun a =>
    (List.range l.kernel_size).filterMap fun b =>
      let r : ℤ := (l.stride * i + a : ℤ) - l.padding
      let s : ℤ := (l.stride * j + b : ℤ) - l.padding
      if 0 ≤ r ∧ r < (x.shape.h : ℤ) ∧ 0 ≤ s ∧ s < (x.shape.w : ℤ) then
        some (x.data n c r.toNat s.toNat)
      else none

/-- Max-pooling values. -/
def MaxPool2d.eval (l : MaxPool2d) (x : Tensor4) : Tensor4 :=
  { shape := ⟨x.shape.c, l.outDim x.shape.h, l.outDim x.shape.w⟩
    data := fun n c i j => listMax (l.window x n c i j) }

/-- The numeric state of a residual or DetNet block: one weight and one
batch-norm state per convolution (a BasicBlock ignores the third pair), plus
the state of the downsample pipeline when the block has one. -/
structure BlockParams where
  w1 : Data4
  p1 : BnParams
  w2 : Data4
  p2 : BnParams
  w3 : Data4
  p3 : BnParams
  dsw : Data4
  dsp : BnParams

/-- The downsample pipeline on values. -/
def Downsample.eval (d : Downsample) (w : Data4) (p : BnParams) (x : Tensor4) : Tensor4 :=
  d.bn.eval p (d.conv.eval w x)

/-- BasicBlock.forward on values. -/
def BasicBlock.eval (b : BasicBlock) (P : BlockParams) (x : Tensor4) : Tensor4 :=
  let out := reluT (b.bn1.eval P.p1 (b.conv1.eval P.w1 x))
  let out := b.bn2.eval P.p2 (b.conv2.eval P.w2 out)
  let residual := match b.downsample with
    | some d => d.eval P.dsw P.dsp x
    | none => x
  reluT (addT out residual)

/-- Bottleneck.forward on values. -/
def Bottleneck.eval (b : Bottleneck) (P : BlockParams) (x : Tensor4) : Tensor4 :=
  let out := reluT (b.bn1.eval P.p1 (b.conv1.eval P.w1 x))
  let out := reluT (b.bn2.eval P.p2 (b.conv2.eval P.w2 out))
  let out := b.bn3.eval P.p3 (b.conv3.eval P.w3 out)
  let residual := match b.downsample with
    | some d => d.eval P.dsw P.dsp x
    | none => x
  reluT (addT out residual)

/-- The three-convolution branch of DetNetBottleneck.forward. -/
def DetNetBottleneck.branch (b : DetNetBottleneck) (P : BlockParams) (x : Tensor4) : Tensor4 :=
  let out := reluT (b.bn1.eval P.p1 (b.conv1.eval P.w1 x))
  let out := reluT (b.bn2.eval P.p2 (b.conv2.eval P.w2 out))
  b.bn3.eval P.p3 (b.conv3.eval P.w3 out)

/-- self.downsample(x) on values: the empty Sequential is the identity and
uses no parameters. -/
def DetNetBottleneck.downsampleEval (b : DetNetBottleneck) (P : BlockParams)
    (x : Tensor4) : Tensor4 :=
  match b.downsample with
  | some d => d.eval P.dsw P.dsp x
  | none => x

/-- DetNetBottleneck.forward on values: the adjusted-or-raw input is added to
the branch, then the final ReLU is applied. -/
def DetNetBottleneck.eval (b : DetNetBottleneck) (P : BlockParams) (x : Tensor4) : Tensor4 :=
  reluT (addT (b.branch P x) (b.downsampleEval P x))

/-- One residual block on values. -/
def Block.eval : Block → BlockParams → Tensor4 → Tensor4
  | .basic b, P, x => b.eval P x
  | .bottleneck b, P, x => b.eval P x

/-- An nn.Sequential of residual blocks on values; the i-th block reads its
numeric state from position i of the supply. -/
def seqEval : List Block → (Nat → BlockParams) → Tensor4 → Tensor4
  | [], _, x => x
  | b :: rest, P, x => seqEval rest (fun i => P (i + 1)) (b.eval (P 0) x)

/-- An nn.Sequential of DetNet blocks on values. -/
def detSeqEval : List DetNetBottleneck → (Nat → BlockParams) → Tensor4 → Tensor4
  | [], _, x => x
  | b :: rest, P, x => detSeqEval rest (fun i => P (i + 1)) (b.eval (P 0) x)

/-- The numeric state of the whole network. -/
structure ResNetParams where
  conv1w : Data4
  bn1p : BnParams
  l1 : Nat → BlockParams
  l2 : Nat → BlockParams
  l3 : Nat → BlockParams
  l4 : Nat → BlockParams
  l5 : Nat → BlockParams
  conv_endw : Data4
  bn_endp : BnParams

/-- The network output after permute(0, 2, 3, 1): values indexed by
(batch element, row, column, channel). -/
structure TensorNHWC where
  data : Nat → Nat → Nat → Nat → ℝ

/-- x.permute(0, 2, 3, 1). -/
def permuteT (x : Tensor4) : TensorNHWC :=
  ⟨fun n i j c => x.data n c i j⟩

/-- ResNet.forward on values, following the source line by line (the avgpool
line is commented out there). -/
def ResNet.evalForward (net : ResNet) (P : ResNetParams) (x : Tensor4) : TensorNHWC :=
  let x := net.conv1.eval P.conv1w x
  let x := net.bn1.eval P.bn1p x
  let x := reluT x
  let x := net.maxpool.eval x
  let x := seqEval net.layer1 P.l1 x
  let x := seqEval net.layer2 P.l2 x
  let x := seqEval net.layer3 P.l3 x
  let x := seqEval net.layer4 P.l4 x
  let x := detSeqEval net.layer5 P.l5 x
  let x := net.conv_end.eval P.conv_endw x
  let x := net.bn_end.eval P.bn_endp x
  let x := sigmoidT x
  permuteT x

end ValueModel

/-!
The parameter initializer (the loop over self.modules() at the end of
ResNet.__init__) and learnable-parameter counts.
-/

/-- How a parameter array is filled at construction time: every entry drawn
independently from a normal distribution recorded by its mean and its
squared standard deviation, or every entry set to one constant. -/
inductive ParamInit
  | normalStdSq (mean stdSq : ℚ)
  | fill (v : ℚ)
deriving DecidableEq, Repr

/-- m.weight.data.normal_(0, math.sqrt(2. / n)) with
n = m.kernel_size[0] * m.kernel_size[1] * m.out_channels: a zero-mean normal
whose squared standard deviation is 2 / n. -/
def convWeightInit (m : Conv2d) : ParamInit :=
  ParamInit.normalStdSq 0 (2 / (m.kernel_size * m.kernel_size * m.out_channels : ℚ))

/-- m.weight.data.fill_(1) for nn.BatchNorm2d (the scale). -/
def bnWeightInit (_ : BatchNorm2d) : ParamInit := ParamInit.fill 1

/-- m.bias.data.zero_() for nn.BatchNorm2d (the shift). -/
def bnBiasInit (_ : BatchNorm2d) : ParamInit := ParamInit.fill 0

/-- The convolution modules self.modules() finds inside one Downsample. -/
def dsConvModules : Option Downsample → List Conv2d
  | some d => [d.conv]
  | none => []

/-- The normalization modules self.modules() finds inside one Downsample. -/
def dsBnModules : Option Downsample → List BatchNorm2d
  | some d => [d.bn]
  | none => []

def BasicBlock.convModules (b : BasicBlock) : List Conv2d :=
  [b.conv1, b.conv2] ++ dsConvModules b.downsample

def BasicBlock.bnModules (b : BasicBlock) : List BatchNorm2d :=
  [b.bn1, b.bn2] ++ dsBnModules b.downsample

def Bottleneck.convModules (b : Bottleneck) : List Conv2d :=
  [b.conv1, b.conv2, b.conv3] ++ dsConvModules b.downsample

def Bottleneck.bnModules (b : Bottleneck) : List BatchNorm2d :=
  [b.bn1, b.bn2, b.bn3] ++ dsBnModules b.downsample

def DetNetBottleneck.convModules (b : DetNetBottleneck) : List Conv2d :=
  [b.conv1, b.conv2, b.conv3] ++ dsConvModules b.downsample

def DetNetBottleneck.bnModules (b : DetNetBottleneck) : List BatchNorm2d :=
  [b.bn1, b.bn2, b.bn3] ++ dsBnModules b.downsample

def Block.convModules : Block → List Conv2d
  | .basic b => b.convModules
  | .bottleneck b => b.convModules

def Block.bnModules : Block → List BatchNorm2d
  | .basic b => b.bnModules
  | .bottleneck b => b.bnModules

/-- Every nn.Conv2d module self.modules() reaches in the network. -/
def ResNet.convModules (net : ResNet) : List Conv2d :=
  [net.conv1] ++ net.layer1.flatMap Block.convModules ++
    net.layer2.flatMap Block.convModules ++ net.layer3.flatMap Block.convModules ++
    net.layer4.flatMap Block.convModules ++
    net.layer5.flatMap DetNetBottleneck.convModules ++ [net.conv_end]

/-- Every nn.BatchNorm2d module self.modules() reaches in the network. -/
def ResNet.bnModules (net : ResNet) : List BatchNorm2d :=
  [net.bn1] ++ net.layer1.flatMap Block.bnModules ++
    net.layer2.flatMap Block.bnModules ++ net.layer3.flatMap Block.bnModules ++
    net.layer4.flatMap Block.bnModules ++
    net.layer5.flatMap DetNetBottleneck.bnModules ++ [net.bn_end]

/-- Learnable parameters of a convolution of this file (bias=False always). -/
def Conv2d.paramCount (l : Conv2d) : Nat :=
  l.out_channels * l.in_channels * l.kernel_size * l.kernel_size

/-- Learnable parameters of a batch normalization (scale and shift). -/
def BatchNorm2d.paramCount (l : BatchNorm2d) : Nat := 2 * l.num_features

/-- Learnable parameters an identity-adjustment path contributes: the empty
Sequential owns none. -/
def dsParamCount : Option Downsample → Nat
  | some d => d.conv.paramCount + d.bn.paramCount
  | none => 0

/-- Channel count expected by the first block of a stage. -/
def stageIn (bs : List Block) : Option Nat := bs.head?.map Block.inChannels

/-- Channel count output by the last block of a stage. -/
def stageOut (bs : List Block) : Option Nat := bs.getLast?.map Block.outChannels

/-!
Lemmas about the import loop.
-/

theorem copyInto_cons (k : String) (v : PTensor) (rest : StateDict) (name : String)
    (d : List ℚ) :
    copyInto ((k, v) :: rest) name d =
      (if k = name then (k, PTensor.mk v.shape d) else (k, v)) :: copyInto rest name d := rfl

theorem dictGet_cons {α : Type} (k : String) (v : α) (rest : List (String × α)) (m : String) :
    dictGet m ((k, v) :: rest) = if k = m then some v else dictGet m rest := rfl

theorem dictGet_copyInto (md : StateDict) (name m : String) (d : List ℚ) :
    dictGet m (copyInto md name d) =
      (dictGet m md).map fun q => if m = name then PTensor.mk q.shape d else q := by
  induction md with
  | nil => rfl
  | cons kv rest ih =>
    obtain ⟨k, v⟩ := kv
    rw [copyInto_cons]
    by_cases h1 : k = name <;> by_cases h2 : k = m
    · subst h1; subst h2
      simp [dictGet_cons]
    · subst h1
      simp [dictGet_cons, h2, ih]
    · subst h2
      simp [dictGet_cons, h1]
    · simp [dictGet_cons, h1, h2, ih]

theorem dictGet_none_forall (md : StateDict) (n : String)
    (h : dictGet n md = none) : ∀ kv ∈ md, kv.1 ≠ n := by
  induction md with
  | nil => intro kv hkv; cases hkv
  | cons hd rest ih =>
    obtain ⟨k, v⟩ := hd
    intro kv hkv
    by_cases hk : k = n
    · rw [dictGet, if_pos hk] at h
      cases h
    · rw [dictGet, if_neg hk] at h
      rcases List.mem_cons.mp hkv with rfl | hm
      · exact hk
      · exact ih h kv hm

theorem broadcastDimsOk_refl (l : List Nat) : broadcastDimsOk l l = true := by
  induction l with
  | nil => rfl
  | cons d ds ih => simp [broadcastDimsOk, ih]

theorem broadcastableTo_refl (s : List Nat) : broadcastableTo s s = true :=
  broadcastDimsOk_refl s.reverse

theorem zipWith_self_unflatten (ds : List Nat) :
    ∀ n, n < listProd ds →
      List.zipWith (fun s i => if s = 1 then 0 else i) ds (unflatten ds n) =
        unflatten ds n := by
  induction ds with
  | nil => intro n _; rfl
  | cons d ds ih =>
    intro n hn
    rw [listProd] at hn
    have hP : 0 < listProd ds := by
      rcases Nat.eq_zero_or_pos (listProd ds) with h0 | h
      · rw [h0, Nat.mul_zero] at hn
        exact absurd hn (Nat.not_lt_zero n)
      · exact h
    simp only [unflatten, List.zipWith]
    rw [ih (n % listProd ds) (Nat.mod_lt _ hP)]
    by_cases hd : d = 1
    · have hlt : n < listProd ds := by
        rw [hd, one_mul] at hn
        exact hn
      rw [if_pos hd, Nat.div_eq_of_lt hlt]
    · rw [if_neg hd]

theorem flattenIdx_unflatten (ds : List Nat) :
    ∀ n, n < listProd ds → flattenIdx ds (unflatten ds n) = n := by
  induction ds with
  | nil =>
    intro n hn
    rw [listProd] at hn
    have h0 : n = 0 := by omega
    subst h0
    rfl
  | cons d ds ih =>
    intro n hn
    rw [listProd] at hn
    have hP : 0 < listProd ds := by
      rcases Nat.eq_zero_or_pos (listProd ds) with h0 | h
      · rw [h0, Nat.mul_zero] at hn
        exact absurd hn (Nat.not_lt_zero n)
      · exact h
    simp only [unflatten, flattenIdx]
    rw [ih (n % listProd ds) (Nat.mod_lt _ hP)]
    exact Nat.div_add_mod' n (listProd ds)

theorem map_getD_range (l : List ℚ) :
    (List.range l.length).map (fun n => l.getD n 0) = l := by
  induction l with
  | nil => rfl
  | cons a t ih =>
    rw [List.length_cons, List.range_succ_eq_map, List.map_cons, List.map_map]
    have hcomp : ((fun n => (a :: t).getD n 0) ∘ Nat.succ) = fun n => t.getD n 0 := by
      funext n
      rfl
    rw [hcomp, ih]
    rfl

theorem broadcastData_self (dst : List Nat) (p : PTensor) (hs : p.shape = dst)
    (hl : p.data.length = listProd dst) : broadcastData dst p = p.data := by
  subst hs
  unfold broadcastData
  rw [Nat.sub_self, ← hl]
  have hstep : ∀ n ∈ List.range p.data.length,
      p.data.getD
        (flattenIdx p.shape
          (List.zipWith (fun s i => if s = 1 then 0 else i) p.shape
            ((unflatten p.shape n).drop 0))) 0 = p.data.getD n 0 := by
    intro n hn
    have hlt : n < listProd p.shape := by
      rw [← hl]
      exact List.mem_range.mp hn
    rw [List.drop_zero, zipWith_self_unflatten p.shape n hlt,
      flattenIdx_unflatten p.shape n hlt]
  rw [List.map_congr_left hstep, map_getD_range]

theorem dictGet_keyed_map (g : String × PTensor → PTensor) (md : StateDict)
    (name : String) :
    dictGet name (md.map fun kv => (kv.1, g kv)) =
      (dictGet name md).map fun v => g (name, v) := by
  induction md with
  | nil => rfl
  | cons kv rest ih =>
    obtain ⟨k, v⟩ := kv
    by_cases h : k = name
    · subst h
      simp [List.map_cons, dictGet_cons]
    · simp [List.map_cons, dictGet_cons, h, ih]

theorem lookupShape_copyInto (md : StateDict) (n : String) (d : List ℚ) (k : String)
    (dflt : List Nat) : lookupShape (copyInto md n d) k dflt = lookupShape md k dflt := by
  unfold lookupShape
  rw [dictGet_copyInto]
  cases dictGet k md with
  | none => rfl
  | some q => by_cases h : k = n <;> simp [h]

theorem importedDict_nil (md : StateDict) : importedDict md [] = md :=
  calc importedDict md []
      = md.map id := List.map_congr_left fun _ _ => rfl
    _ = md := List.map_id md

theorem importedDict_cons_none (md : StateDict) (n : String) (p : PTensor)
    (ps : StateDict) (hget : dictGet n md = none) :
    importedDict md ((n, p) :: ps) = importedDict md ps := by
  unfold importedDict
  apply List.map_congr_left
  intro kv hkv
  have hne : ¬n = kv.1 := fun h => dictGet_none_forall md n hget kv hkv h.symm
  simp [dataAfter, hne]

theorem importedDict_cons_some (md : StateDict) (n : String) (p q0 : PTensor)
    (ps : StateDict) (hget : dictGet n md = some q0) :
    importedDict md ((n, p) :: ps) =
      importedDict (copyInto md n (broadcastData q0.shape p)) ps := by
  have hcs : ∀ k dflt, lookupShape (copyInto md n (broadcastData q0.shape p)) k dflt =
      lookupShape md k dflt := fun k dflt => lookupShape_copyInto md n _ k dflt
  unfold importedDict
  simp only [hcs]
  rw [show copyInto md n (broadcastData q0.shape p) = md.map (fun kv =>
      if kv.1 = n then (kv.1, PTensor.mk kv.2.shape (broadcastData q0.shape p)) else kv)
    from rfl, List.map_map]
  apply List.map_congr_left
  intro kv _
  by_cases h : kv.1 = n
  · have hL : lookupShape md n kv.2.shape = q0.shape := by
      unfold lookupShape
      rw [hget]
    simp [Function.comp, dataAfter, h, hL]
  · have hne : ¬n = kv.1 := fun hh => h hh.symm
    simp [Function.comp, dataAfter, h, hne]

theorem dictGet_importedDict (md ps : StateDict) (name : String) :
    dictGet name (importedDict md ps) =
      (dictGet name md).map fun q => PTensor.mk q.shape (dataAfter name q.shape q.data ps) := by
  unfold importedDict
  rw [dictGet_keyed_map]
  cases hget : dictGet name md with
  | none => rfl
  | some q =>
    have hL : lookupShape md name q.shape = q.shape := by
      unfold lookupShape
      rw [hget]
    simp [hL]

theorem lookupShape_importedDict (md ps : StateDict) (k : String) (dflt : List Nat) :
    lookupShape (importedDict md ps) k dflt = lookupShape md k dflt := by
  unfold lookupShape
  rw [dictGet_importedDict]
  cases dictGet k md <;> rfl

theorem dataAfter_idem (n : String) (dst : List Nat) (ps : StateDict) :
    ∀ d, dataAfter n dst (dataAfter n dst d ps) ps = dataAfter n dst d ps := by
  induction ps with
  | nil => intro d; rfl
  | cons mp rest ih =>
    intro d
    obtain ⟨m, p⟩ := mp
    by_cases h : m = n <;> simp [dataAfter, h, ih]

theorem importedDict_idem (md ps : StateDict) :
    importedDict (importedDict md ps) ps = importedDict md ps := by
  have h1 : importedDict (importedDict md ps) ps =
      (importedDict md ps).map fun kv =>
        (kv.1, PTensor.mk kv.2.shape
          (dataAfter kv.1 (lookupShape (importedDict md ps) kv.1 kv.2.shape) kv.2.data ps)) :=
    rfl
  rw [h1]
  simp only [lookupShape_importedDict]
  rw [show importedDict md ps = md.map (fun kv =>
      (kv.1, PTensor.mk kv.2.shape
        (dataAfter kv.1 (lookupShape md kv.1 kv.2.shape) kv.2.data ps))) from rfl,
    List.map_map]
  apply List.map_congr_left
  intro kv _
  simp [Function.comp, dataAfter_idem]

theorem loadPairs_ok_iff (ps : StateDict) : ∀ (md md' : StateDict),
    loadPairs md ps = .ok md' ↔ (Compat md ps ∧ md' = importedDict md ps) := by
  induction ps with
  | nil =>
    intro md md'
    constructor
    · intro h
      refine ⟨fun name p q hm => absurd hm (List.not_mem_nil _), ?_⟩
      rw [importedDict_nil]
      exact (Except.ok.inj h).symm
    · rintro ⟨-, rfl⟩
      rw [importedDict_nil]
      rfl
  | cons hd rest ih =>
    intro md md'
    obtain ⟨n, p⟩ := hd
    rw [loadPairs]
    cases hget : dictGet n md with
    | none =>
      rw [ih]
      have hdict := importedDict_cons_none md n p rest hget
      constructor
      · rintro ⟨hc, rfl⟩
        refine ⟨?_, hdict.symm⟩
        intro name q r hm hg
        rcases List.mem_cons.mp hm with heq | hm2
        · obtain ⟨rfl, rfl⟩ := Prod.mk.injEq .. ▸ Prod.ext_iff.mp heq
          rw [hget] at hg
          cases hg
        · exact hc name q r hm2 hg
      · rintro ⟨hc, rfl⟩
        refine ⟨?_, hdict⟩
        intro name q r hm hg
        exact hc name q r (List.mem_cons_of_mem _ hm) hg
    | some q =>
      show (if broadcastableTo p.shape q.shape = true then
          loadPairs (copyInto md n (broadcastData q.shape p)) rest
          else Except.error "copy_: incompatible shapes") = Except.ok md' ↔
        Compat md ((n, p) :: rest) ∧ md' = importedDict md ((n, p) :: rest)
      by_cases hs : broadcastableTo p.shape q.shape = true
      · rw [if_pos hs, ih]
        have hdict := importedDict_cons_some md n p q rest hget
        constructor
        · rintro ⟨hc, rfl⟩
          refine ⟨?_, hdict.symm⟩
          intro name r s hm hg
          rcases List.mem_cons.mp hm with heq | hm2
          · obtain ⟨rfl, rfl⟩ := Prod.mk.injEq .. ▸ Prod.ext_iff.mp heq
            rw [hget] at hg
            cases hg
            exact hs
          · have hg2 : dictGet name (copyInto md n (broadcastData q.shape p)) =
                some (if name = n then PTensor.mk s.shape (broadcastData q.shape p)
                  else s) := by
              rw [dictGet_copyInto, hg]
              rfl
            have := hc name r _ hm2 hg2
            by_cases hn : name = n
            · rw [if_pos hn] at this
              simpa using this
            · rwa [if_neg hn] at this
        · rintro ⟨hc, rfl⟩
          refine ⟨?_, hdict⟩
          intro name r s hm hg
          rw [dictGet_copyInto] at hg
          obtain ⟨s0, hs0, rfl⟩ := Option.map_eq_some'.mp hg
          have hshape := hc name r s0 (List.mem_cons_of_mem _ hm) hs0
          by_cases hn : name = n
          · rw [if_pos hn]
            exact hshape
          · rw [if_neg hn]
            exact hshape
      · rw [if_neg hs]
        constructor
        · intro h
          cases h
        · rintro ⟨hc, -⟩
          exact absurd (hc n p q (List.mem_cons_self _ _) hget) hs

/-!
Small helper lemmas.
-/

theorem blockKind_build_stride (k : BlockKind) (inplanes planes stride : Nat)
    (ds : Option Downsample) : (k.build inplanes planes stride ds).stride = stride := by
  cases k <;> rfl

theorem blockKind_build_downsample (k : BlockKind) (inplanes planes stride : Nat)
    (ds : Option Downsample) : (k.build inplanes planes stride ds).downsample = ds := by
  cases k <;> rfl

theorem sigmoid_nonneg (z : ℝ) : 0 ≤ sigmoid z := by
  unfold sigmoid
  positivity

theorem sigmoid_le_one (z : ℝ) : sigmoid z ≤ 1 := by
  unfold sigmoid
  rw [div_le_one (by positivity)]
  linarith [Real.exp_pos (-z)]

/-!
The claims.
-/

/-- C1: the claim says the stem convolution accepts 4-channel input of shape
(N, 4, 448, 448) for every depth configuration; the code declares conv1 with
in_channels = 3, so the forward pass instead rejects every 4-channel input —
including the (10, 4, 448, 448) input the file's own test() feeds it. -/
theorem stem_rejects_four_channels (cfg : Config) (n : Nat) :
    cfg.net.conv1.in_channels = 3 ∧
    cfg.net.conv1.apply ⟨4, 448, 448⟩ = .error "conv2d: wrong number of input channels" ∧
    (cfg.net.forwardShape n ⟨4, 448, 448⟩).isOk = false := by
  cases cfg <;> exact ⟨rfl, rfl, rfl⟩

/-- C2 counterexample: the forward pass produces no output at all on the
claimed accepted shape (N, 4, 448, 448), already at N = 1 on resnet18. -/
theorem forward_no_output_on_four_channels :
    (Config.r18.net.forwardShape 1 ⟨4, 448, 448⟩).isOk = false := rfl

/-- C2 (amended to the 3-channel inputs the code accepts): for every depth
configuration and every batch size, the forward pass maps (N, 3, 448, 448) to
the channel-last shape (N, 14, 14, 10), identical across the five
configurations, and in the value semantics every output entry is a sigmoid
value, hence lies in [0, 1]. -/
theorem forward_contract (cfg : Config) (n : Nat) :
    cfg.net.forwardShape n ⟨3, 448, 448⟩ = .ok ⟨n, 14, 14, 10⟩ ∧
    (∀ c : Config, c.net.forwardShape n ⟨3, 448, 448⟩ = .ok ⟨n, 14, 14, 10⟩) ∧
    ∀ (P : ResNetParams) (x : Tensor4) (b i j k : Nat),
      0 ≤ (cfg.net.evalForward P x).data b i j k ∧
        (cfg.net.evalForward P x).data b i j k ≤ 1 := by
  refine ⟨?_, fun c => ?_, fun P x b i j k => ?_⟩
  · cases cfg <;> rfl
  · cases c <;> rfl
  · exact ⟨sigmoid_nonneg _, sigmoid_le_one _⟩

/-- C3 counterexample: a matching-name source value of shape [1], different
from the stored shape [2], does not raise: copy_ silently broadcast-writes
it over the whole stored tensor — no error, state changed. -/
theorem broadcast_mismatch_not_error :
    loadPairs [("bn1.weight", ⟨[2], [3, 4]⟩)] [("bn1.weight", ⟨[1], [7]⟩)] =
      .ok [("bn1.weight", ⟨[2], [7, 7]⟩)] ∧
    ([1] : List Nat) ≠ [2] :=
  ⟨rfl, by decide⟩

/-- C3 (amended): the import loop copies, in place and with the stored shape
kept, every source entry whose name exists in the network's parameter
mapping — each parameter ends with the broadcast of the last value its name
is assigned, values copied verbatim when the shapes are equal (equal shapes
are always broadcastable) — silently skips entries with unknown names and
adds nothing, and raises only when a matching-name entry carries a value
whose shape does not broadcast to the parameter's shape. -/
theorem weight_import_spec (md ps : StateDict) :
    (Compat md ps → loadPairs md ps = .ok (importedDict md ps)) ∧
    (∀ name, dictGet name (importedDict md ps) =
      (dictGet name md).map fun q => PTensor.mk q.shape (dataAfter name q.shape q.data ps)) ∧
    (∀ name p q, (name, p) ∈ ps → dictGet name md = some q →
      broadcastableTo p.shape q.shape = false → (loadPairs md ps).isOk = false) ∧
    (∀ s : List Nat, broadcastableTo s s = true) ∧
    (∀ (dst : List Nat) (p : PTensor), p.shape = dst → p.data.length = listProd dst →
      broadcastData dst p = p.data) := by
  refine ⟨fun hc => (loadPairs_ok_iff ps md _).mpr ⟨hc, rfl⟩,
    fun name => dictGet_importedDict md ps name, ?_,
    broadcastableTo_refl, broadcastData_self⟩
  intro name p q hm hg hne
  cases hok : loadPairs md ps with
  | error e => rfl
  | ok md2 =>
    have := ((loadPairs_ok_iff ps md md2).mp hok).1 name p q hm hg
    rw [hne] at this
    exact Bool.noConfusion this

/-- C4: _make_layer builds exactly `blocks` blocks (the stage's block count is
at least 1 — "the first block" presupposes it, and every configuration uses
at least 2); the first receives the given stride and a downsample path
exactly when stride is not 1 or the incoming channel count differs from
planes times the block expansion; every later block is built with stride 1
and no downsample; self.inplanes becomes planes times the expansion. -/
theorem make_layer_spec (block : BlockKind) (inplanes planes blocks stride : Nat)
    (h : 1 ≤ blocks) :
    (makeLayer block inplanes planes blocks stride).1.length = blocks ∧
    (∀ b, (makeLayer block inplanes planes blocks stride).1.head? = some b →
      b.stride = stride ∧
      (b.downsample.isSome ↔ (stride ≠ 1 ∨ inplanes ≠ planes * block.expansion))) ∧
    (∀ b ∈ (makeLayer block inplanes planes blocks stride).1.tail,
      b.stride = 1 ∧ b.downsample = none) ∧
    (makeLayer block inplanes planes blocks stride).2 = planes * block.expansion := by
  refine ⟨?_, ?_, ?_, rfl⟩
  · simp only [makeLayer, List.length_cons, List.length_map, List.length_range]
    omega
  · intro b hb
    simp only [makeLayer, List.head?_cons, Option.some.injEq] at hb
    subst hb
    refine ⟨blockKind_build_stride .., ?_⟩
    rw [blockKind_build_downsample]
    split_ifs with hc
    · simpa using hc
    · simpa using hc
  · intro b hb
    simp only [makeLayer, List.tail_cons, List.mem_map] at hb
    obtain ⟨i, -, rfl⟩ := hb
    exact ⟨blockKind_build_stride .., blockKind_build_downsample ..⟩

/-- Witness for make_layer_spec: the stage-1 call of resnet18,
_make_layer(BasicBlock, 64, 2) with the default stride 1. -/
theorem make_layer_spec_witness :
    (makeLayer .basicKind 64 64 2 1).1.length = 2 ∧
    (∀ b, (makeLayer .basicKind 64 64 2 1).1.head? = some b →
      b.stride = 1 ∧
      (b.downsample.isSome ↔ (1 ≠ 1 ∨ 64 ≠ 64 * BlockKind.basicKind.expansion))) ∧
    (∀ b ∈ (makeLayer .basicKind 64 64 2 1).1.tail,
      b.stride = 1 ∧ b.downsample = none) ∧
    (makeLayer .basicKind 64 64 2 1).2 = 64 * BlockKind.basicKind.expansion :=
  make_layer_spec .basicKind 64 64 2 1 (by decide)

/-- C5: a DetNet block's downsample attribute holds a 1x1-convolution +
batch-norm pipeline exactly when stride is not 1, or the input channels
differ from expansion * planes, or the block type is B; otherwise it is the
empty Sequential — zero learnable parameters and the identity both at the
shape and at the value level — and forward always adds the
adjusted-or-raw input to the three-convolution branch before the final
activation. -/
theorem detnet_downsample_spec (in_planes planes stride : Nat) (bt : BlockType) :
    ((DetNetBottleneck.build in_planes planes stride bt).downsample.isSome ↔
      (stride ≠ 1 ∨ in_planes ≠ DetNetBottleneck.expansion * planes ∨ bt = BlockType.B)) ∧
    ((DetNetBottleneck.build in_planes planes stride bt).downsample = none →
      dsParamCount (DetNetBottleneck.build in_planes planes stride bt).downsample = 0 ∧
      (∀ x, (DetNetBottleneck.build in_planes planes stride bt).downsampleApply x = .ok x) ∧
      (∀ P y, (DetNetBottleneck.build in_planes planes stride bt).downsampleEval P y = y)) ∧
    (∀ d, (DetNetBottleneck.build in_planes planes stride bt).downsample = some d →
      d.conv = ⟨in_planes, DetNetBottleneck.expansion * planes, 1, stride, 0, 1⟩ ∧
      d.bn = ⟨DetNetBottleneck.expansion * planes⟩) ∧
    (∀ P y, (DetNetBottleneck.build in_planes planes stride bt).eval P y =
      reluT (addT ((DetNetBottleneck.build in_planes planes stride bt).branch P y)
        ((DetNetBottleneck.build in_planes planes stride bt).downsampleEval P y))) := by
  have hds : (DetNetBottleneck.build in_planes planes stride bt).downsample =
      if stride ≠ 1 ∨ in_planes ≠ DetNetBottleneck.expansion * planes ∨ bt = BlockType.B then
        some ⟨⟨in_planes, DetNetBottleneck.expansion * planes, 1, stride, 0, 1⟩,
              ⟨DetNetBottleneck.expansion * planes⟩⟩
      else none := rfl
  refine ⟨?_, ?_, ?_, fun P y => rfl⟩
  · rw [hds]
    split_ifs with hc
    · simpa using hc
    · simpa using hc
  · intro hnone
    refine ⟨?_, fun x => ?_, fun P y => ?_⟩
    · rw [hnone]
      rfl
    · unfold DetNetBottleneck.downsampleApply
      rw [hnone]
      rfl
    · unfold DetNetBottleneck.downsampleEval
      rw [hnone]
  · intro d hd
    rw [hds] at hd
    split_ifs at hd with hc
    injection hd with hd
    subst hd
    exact ⟨rfl, rfl⟩

/-- C6: after construction and before any import, every batch-norm module the
initializer loop reaches has its scale filled with 1 and its shift with 0,
and every convolution module has its weights drawn from a zero-mean normal
with squared standard deviation 2 / (kernel_height * kernel_width *
out_channels); the traversal covers the stem and the final projection. -/
theorem initializer_spec (cfg : Config) :
    (∀ m ∈ cfg.net.bnModules, bnWeightInit m = ParamInit.fill 1 ∧
      bnBiasInit m = ParamInit.fill 0) ∧
    (∀ m ∈ cfg.net.convModules,
      convWeightInit m = ParamInit.normalStdSq 0
        (2 / (m.kernel_size * m.kernel_size * m.out_channels : ℚ))) ∧
    cfg.net.conv1 ∈ cfg.net.convModules ∧ cfg.net.conv_end ∈ cfg.net.convModules ∧
    cfg.net.bn1 ∈ cfg.net.bnModules ∧ cfg.net.bn_end ∈ cfg.net.bnModules := by
  refine ⟨fun m _ => ⟨rfl, rfl⟩, fun m _ => rfl, ?_, ?_, ?_, ?_⟩ <;>
    cases cfg <;> simp [ResNet.convModules, ResNet.bnModules]

/-- C7: a successful import — every matching-name source value broadcastable
to its parameter's stored shape, equal shapes included — is idempotent:
running the same weight source a second time succeeds and leaves every
parameter exactly as after the first run, broadcast-written entries too. -/
theorem import_idempotent (load_url : String → StateDict) (md : StateDict)
    (parameter_url : String) (md1 : StateDict)
    (h : load_my_state_dict load_url md parameter_url = .ok md1) :
    load_my_state_dict load_url md1 parameter_url = .ok md1 := by
  unfold load_my_state_dict at h ⊢
  cases hu : dictGet parameter_url model_urls with
  | none =>
    rw [hu] at h
    exact Except.noConfusion h
  | some u =>
    rw [hu] at h
    show loadPairs md1 (load_url u) = Except.ok md1
    obtain ⟨hc, rfl⟩ := (loadPairs_ok_iff _ _ _).mp h
    rw [loadPairs_ok_iff]
    refine ⟨?_, (importedDict_idem md (load_url u)).symm⟩
    intro name p q hm hg
    rw [dictGet_importedDict] at hg
    obtain ⟨r, hr, hrq⟩ := Option.map_eq_some'.mp hg
    have hshape := hc name p r hm hr
    rw [← hrq]
    exact hshape

/-- Witness for import_idempotent: a one-parameter network, a source holding
one matching and one extraneous entry, fetched through the resnet18 url. -/
theorem import_idempotent_witness :
    load_my_state_dict
      (fun _ => [("conv1.weight", ⟨[1], [7]⟩), ("fc.weight", ⟨[2], [0, 0]⟩)])
      [("conv1.weight", ⟨[1], [3]⟩)] "resnet18" = .ok [("conv1.weight", ⟨[1], [7]⟩)] ∧
    load_my_state_dict
      (fun _ => [("conv1.weight", ⟨[1], [7]⟩), ("fc.weight", ⟨[2], [0, 0]⟩)])
      [("conv1.weight", ⟨[1], [7]⟩)] "resnet18" = .ok [("conv1.weight", ⟨[1], [7]⟩)] := by
  have h : load_my_state_dict
      (fun _ => [("conv1.weight", ⟨[1], [7]⟩), ("fc.weight", ⟨[2], [0, 0]⟩)])
      [("conv1.weight", ⟨[1], [3]⟩)] "resnet18" = .ok [("conv1.weight", ⟨[1], [7]⟩)] := by
    rfl
  exact ⟨h, import_idempotent _ _ _ _ h⟩

/-- C8: in every depth configuration the channel count output by the last
block of each stage equals the channel count expected by the first block of
the next stage, including the hand-off from stage 4 to the detection head. -/
theorem stage_channel_chain (cfg : Config) :
    cfg.net.layer1 ≠ [] ∧ cfg.net.layer2 ≠ [] ∧ cfg.net.layer3 ≠ [] ∧
    cfg.net.layer4 ≠ [] ∧ cfg.net.layer5 ≠ [] ∧
    stageOut cfg.net.layer1 = stageIn cfg.net.layer2 ∧
    stageOut cfg.net.layer2 = stageIn cfg.net.layer3 ∧
    stageOut cfg.net.layer3 = stageIn cfg.net.layer4 ∧
    stageOut cfg.net.layer4 = (cfg.net.layer5.head?.map fun b => b.conv1.in_channels) := by
  cases cfg <;> exact ⟨by decide, by decide, by decide, by decide, by decide,
    rfl, rfl, rfl, rfl⟩

/-- C9: forward (whose avgpool line is commented out) maps a 448x448 input to
a 14x14 grid — downsampling factor 32 — in every configuration, while the
constructed 2x2 average-pooling layer, had it been applied to the
detection-head output, would have halved the grid to 7x7. -/
theorem avgpool_unused_output_grid (cfg : Config) (n : Nat) :
    cfg.net.forwardShape n ⟨3, 448, 448⟩ = .ok ⟨n, 14, 14, 10⟩ ∧
    cfg.net.avgpool = ⟨2⟩ ∧
    cfg.net.avgpool.apply ⟨256, 14, 14⟩ = .ok ⟨256, 7, 7⟩ ∧
    32 * 14 = 448 := by
  cases cfg <;> exact ⟨rfl, rfl, rfl, rfl⟩

/-- C10: a source name outside the five registered ones makes the importer
raise at the very first step — the registry lookup — before the weight
source is fetched or any parameter of the network is read or written, so in
this state-passing semantics no updated parameter state is ever produced. -/
theorem unknown_source_name_spec (load_url : String → StateDict) (net : StateDict)
    (parameter_url : String) (h : dictGet parameter_url model_urls = none) :
    model_urls.map Prod.fst = ["resnet18", "resnet34", "resnet50", "resnet101", "resnet152"] ∧
    load_my_state_dict load_url net parameter_url =
      .error "KeyError: parameter_url not registered in model_urls" := by
  refine ⟨rfl, ?_⟩
  unfold load_my_state_dict
  rw [h]

/-- Witness for unknown_source_name_spec at the unregistered name resnet19. -/
theorem unknown_source_name_witness :
    model_urls.map Prod.fst = ["resnet18", "resnet34", "resnet50", "resnet101", "resnet152"] ∧
    load_my_state_dict (fun _ => []) [] "resnet19" =
      .error "KeyError: parameter_url not registered in model_urls" :=
  unknown_source_name_spec (fun _ => []) [] "resnet19" (by decide)

end ResnetYolo
